import Mathlib

/-
Verification development for the shoki-ai pipeline.

Shallow embedding of the code in src/services/: the privacy service's
deterministic masking, the orchestrator's run/step state machine and event
handlers, and the stage workers' idempotent task execution and completion
envelopes.  External collaborators (SHA-256 hexdigest, object download, the
Whisper and LLM model calls) are abstracted as function parameters; Firestore
transactions are modelled over an explicit state value with the client's
read/write discipline: reads must precede writes, a transactional read only
ever sees committed state (never the transaction's own buffered writes), and
a read attempted after a buffered write raises ReadAfterWriteError, aborting
the transaction with no state change.
-/

namespace Shoki

/-! ## Privacy service: deterministic masking
Embeds src/services/privacy_service/src/service.py. -/

/-- Detected entity span, mirroring presidio RecognizerResult as used by the
code: integer character offsets and an entity type.  The field named end in
the source is called stop here because end is reserved in Lean.  (Presidio
results always carry integer offsets; the source's skip of None offsets is
unreachable because sorted would already have failed on a None key.) -/
structure RecognizerResult where
  start : Nat
  stop : Nat
  entity_type : String
deriving DecidableEq, Repr

/-- Python string slice text[a:b] over a list of characters. -/
def pySlice (s : List Char) (a b : Nat) : List Char :=
  (s.take b).drop a

/-- Python string slice text[a:] over a list of characters. -/
def pySliceFrom (s : List Char) (a : Nat) : List Char :=
  s.drop a

/-- Masking token of _deterministic_token: the bracketed entity type followed
by the first 8 hex characters of sha256(salt ++ span).  The sha256 hexdigest
(hashlib.sha256(...).hexdigest()) is abstracted as the parameter sha256hex. -/
def deterministic_token (sha256hex : String → String) (salt : String)
    (entity_type raw_text : String) : String :=
  "[" ++ entity_type ++ "_" ++ (sha256hex (salt ++ raw_text)).take 8 ++ "]"

/-- Comparison by the sort key (r.start, r.end) used by
sorted(results, key=lambda r: (r.start, r.end)). -/
def spanLE (r1 r2 : RecognizerResult) : Bool :=
  decide (r1.start < r2.start ∨ (r1.start = r2.start ∧ r1.stop ≤ r2.stop))

/-- Loop of _apply_deterministic_mask: walk the ordered spans with a cursor,
skip a span that starts before the cursor (overlap with the previously
emitted span), otherwise copy the gap, emit one token for the span's text,
and move the cursor to the span's end; finally copy the tail text[cursor:]. -/
def maskGo (sha256hex : String → String) (salt : String) (text : List Char) :
    List RecognizerResult → Nat → List Char
  | [], cursor => pySliceFrom text cursor
  | r :: rs, cursor =>
    if r.start < cursor then
      maskGo sha256hex salt text rs cursor
    else
      pySlice text cursor r.start
        ++ (deterministic_token sha256hex salt r.entity_type
              (String.mk (pySlice text r.start r.stop))).data
        ++ maskGo sha256hex salt text rs r.stop

/-- Embeds _apply_deterministic_mask: sort the detections by (start, end),
then run the cursor loop from 0. -/
def apply_deterministic_mask (sha256hex : String → String) (salt : String)
    (text : String) (results : List RecognizerResult) : String :=
  String.mk (maskGo sha256hex salt text.data (results.mergeSort spanLE) 0)

/-- Piece of the mask output: either a copied gap of the original text or the
token emitted for one kept span. -/
inductive MaskPiece
  | gap (s : List Char)
  | tok (r : RecognizerResult)
deriving DecidableEq, Repr

/-- Decomposition of the mask loop into pieces, same cursor discipline as
maskGo. -/
def maskPieces (text : List Char) : List RecognizerResult → Nat → List MaskPiece
  | [], cursor => [.gap (pySliceFrom text cursor)]
  | r :: rs, cursor =>
    if r.start < cursor then
      maskPieces text rs cursor
    else
      .gap (pySlice text cursor r.start) :: .tok r :: maskPieces text rs r.stop

/-- Rendering of one piece: a gap is copied verbatim; a kept span becomes its
deterministic token. -/
def renderPiece (sha256hex : String → String) (salt : String) (text : List Char) :
    MaskPiece → List Char
  | .gap s => s
  | .tok r => (deterministic_token sha256hex salt r.entity_type
      (String.mk (pySlice text r.start r.stop))).data

/-- Concatenation of rendered pieces. -/
def concatPieces (sha256hex : String → String) (salt : String) (text : List Char) :
    List MaskPiece → List Char
  | [] => []
  | p :: ps => renderPiece sha256hex salt text p ++ concatPieces sha256hex salt text ps

/-- Spans that survive the cursor discipline (the ones the loop emits a token
for), in emission order. -/
def keptSpans : List RecognizerResult → Nat → List RecognizerResult
  | [], _ => []
  | r :: rs, cursor =>
    if r.start < cursor then keptSpans rs cursor else r :: keptSpans rs r.stop

/-- Token pieces of a piece list, projected back to their spans. -/
def tokensOf (ps : List MaskPiece) : List RecognizerResult :=
  ps.filterMap fun p => match p with | .tok r => some r | .gap _ => none

/-- Overlap of two spans: each starts strictly before the other ends. -/
def overlaps (r1 r2 : RecognizerResult) : Prop :=
  r1.start < r2.stop ∧ r2.start < r1.stop

instance (r1 r2 : RecognizerResult) : Decidable (overlaps r1 r2) := by
  unfold overlaps
  infer_instance

/-! ## Shared data model: artifacts, envelopes, documents -/

/-- Transcript segment (transcribe_service schemas.Segment).  The numeric
start/end/duration values are float payload data that no embedded code ever
computes with; they are carried opaquely as integers here. -/
structure Segment where
  start : Int
  stop : Int
  text : String
deriving DecidableEq, Repr

/-- Transcription payload (transcribe_service schemas.Transcription). -/
structure Transcription where
  text : String
  language : Option String := none
  segments : List Segment := []
  duration : Option Int := none
  model_used : Option String := none
  timestamp : String := ""
deriving DecidableEq, Repr

/-- Transcript artifact (transcribe_service schemas.TranscriptionResponse). -/
structure TranscriptionResponse where
  transcription : Transcription
  audio_name : String
  version : String := "v1"
deriving DecidableEq, Repr

/-- Input reference carried in envelopes and run documents. -/
structure InputRef where
  bucket : Option String := none
  name : Option String := none
  generation : Option String := none
  session_id : Option String := none
  language_hint : Option String := none
deriving DecidableEq, Repr

/-- Artifacts map of an envelope or a stage record, with one optional field
per key the code actually writes.  A key the producing code does not set is
none, matching an absent JSON key. -/
structure ArtifactsMap where
  cache_key : Option String := none
  transcription : Option TranscriptionResponse := none
  transcript_uri : Option String := none
  audit_uri : Option String := none
  hipaa_pass : Option Bool := none
deriving DecidableEq, Repr

/-- Event envelope as decoded from a Pub/Sub message body.  Timestamps are
opaque payload and omitted. -/
structure Event where
  version : String := "1"
  event_type : String := ""
  run_id : String := ""
  step : Option String := none
  input : InputRef := {}
  artifacts : ArtifactsMap := {}
  correlation_id : String := ""
  idempotency_key : Option String := none
  error : Option String := none
deriving DecidableEq, Repr

/-- Message published with an ordering key to a topic (TOPICS key in the
orchestrator). -/
structure Published where
  topic : String
  event : Event
  ordering_key : String
deriving DecidableEq, Repr

/-! ## Orchestrator state machine
Embeds src/services/orchestrator_service/main.py.  Firestore documents are
modelled as association lists with newest-first lookup; a transaction is the
sequential application of its reads and writes to the state. -/

inductive StepStatus
  | PENDING
  | COMPLETED
  | FAILED
deriving DecidableEq, Repr

inductive RunStatus
  | RUNNING
  | COMPLETED
  | FAILED
deriving DecidableEq, Repr

inductive Outcome
  | PASS
  | FAIL
deriving DecidableEq, Repr

/-- Stage record (steps subcollection document). -/
structure StepDoc where
  status : StepStatus
  artifacts : ArtifactsMap := {}
  error : Option String := none
deriving DecidableEq, Repr

/-- Run document. -/
structure RunDoc where
  status : RunStatus
  outcome : Option Outcome := none
  input : Option InputRef := none
  correlation_id : Option String := none
deriving DecidableEq, Repr

/-- Association-list lookup: first (most recent) binding wins. -/
def lookupA {α β : Type} [DecidableEq α] : List (α × β) → α → Option β
  | [], _ => none
  | (k, v) :: l, k2 => if k2 = k then some v else lookupA l k2

/-- Firestore state visible to the orchestrator: run documents and per-run
stage records. -/
structure OrchState where
  runs : List (String × RunDoc) := []
  steps : List ((String × String) × StepDoc) := []
deriving DecidableEq, Repr

def getRun (s : OrchState) (run_id : String) : Option RunDoc :=
  lookupA s.runs run_id

def getStep (s : OrchState) (run_id step : String) : Option StepDoc :=
  lookupA s.steps (run_id, step)

def putRun (s : OrchState) (run_id : String) (d : RunDoc) : OrchState :=
  { s with runs := (run_id, d) :: s.runs }

def putStep (s : OrchState) (run_id step : String) (d : StepDoc) : OrchState :=
  { s with steps := ((run_id, step), d) :: s.steps }

/-- Python falsy-or on strings: a or b. -/
def pyOr (a b : String) : String :=
  if a = "" then b else a

/-- Run id derivation, idempotency_key_for: sha256 hexdigest of
"bucket/name@generation|session".  The hexdigest is the abstracted
parameter. -/
def idempotency_key_for (sha256hex : String → String) (bucket name : String)
    (generation session_id : Option String) : String :=
  sha256hex (bucket ++ "/" ++ name ++ "@" ++ generation.getD "" ++ "|" ++ session_id.getD "")

/-- Request body of POST /run (orchestrator schemas.RunCreate). -/
structure RunCreate where
  bucket : String
  name : String
  generation : Option String := none
  session_id : Option String := none
  correlation_id : Option String := none
deriving DecidableEq, Repr

/-- Result body of POST /run. -/
structure CreateRunResult where
  run_id : String
  created : Bool
deriving DecidableEq, Repr

/-- Event published on run creation (the transcribe.requested envelope built
in create_run). -/
def transcribeRequested (run_id : String) (run : RunCreate) (corr : String) : Event :=
  { event_type := "transcribe.requested"
    run_id := run_id
    step := some "transcribe"
    input := { bucket := some run.bucket, name := some run.name,
               generation := run.generation, session_id := run.session_id }
    idempotency_key := some run_id
    correlation_id := corr }

/-- Embeds create_run: compute the run id; in one transaction create the run
(RUNNING) and the transcribe step (PENDING) only if the run is absent;
publish transcribe.requested with ordering key run_id only when created. -/
def create_run (sha256hex : String → String) (s : OrchState) (run : RunCreate)
    (corr_header : Option String) : OrchState × List Published × CreateRunResult :=
  let corr := pyOr (run.correlation_id.getD "") (corr_header.getD "")
  let run_id := idempotency_key_for sha256hex run.bucket run.name run.generation run.session_id
  match getRun s run_id with
  | some _ => (s, [], { run_id := run_id, created := false })
  | none =>
    let s1 := putRun s run_id
      { status := .RUNNING
        input := some { bucket := some run.bucket, name := some run.name,
                        generation := run.generation, session_id := run.session_id }
        correlation_id := some corr }
    let s2 := putStep s1 run_id "transcribe" { status := .PENDING }
    (s2,
     [{ topic := "transcribe", event := transcribeRequested run_id run corr,
        ordering_key := run_id }],
     { run_id := run_id, created := true })

/-- Next-stage envelope built inside on_transcribe_completed. -/
def redactRequested (run_id : String) (evt : Event) : Event :=
  { event_type := "redact.requested"
    run_id := run_id
    step := some "redact"
    input := evt.input
    artifacts := evt.artifacts
    correlation_id := evt.correlation_id }

/-- Next-stage envelope built inside on_redact_completed. -/
def auditRequested (run_id : String) (evt : Event) : Event :=
  { event_type := "audit.requested"
    run_id := run_id
    step := some "audit"
    input := evt.input
    artifacts := evt.artifacts
    correlation_id := evt.correlation_id }

/-- Embeds on_transcribe_completed's transaction: if the transcribe step is
already COMPLETED return None (no write, nothing to publish); otherwise merge
status COMPLETED and the event's artifacts into the step record and return
the redact.requested envelope.  The merge write preserves fields it does not
mention (here: error). -/
def on_transcribe_completed (s : OrchState) (run_id : String) (evt : Event) :
    OrchState × Option Event :=
  match getStep s run_id "transcribe" with
  | some step =>
    if step.status = .COMPLETED then (s, none)
    else
      (putStep s run_id "transcribe"
        { step with status := .COMPLETED, artifacts := evt.artifacts },
       some (redactRequested run_id evt))
  | none =>
    (putStep s run_id "transcribe" { status := .COMPLETED, artifacts := evt.artifacts },
     some (redactRequested run_id evt))

/-- Embeds on_redact_completed's transaction, same shape as transcribe. -/
def on_redact_completed (s : OrchState) (run_id : String) (evt : Event) :
    OrchState × Option Event :=
  match getStep s run_id "redact" with
  | some step =>
    if step.status = .COMPLETED then (s, none)
    else
      (putStep s run_id "redact"
        { step with status := .COMPLETED, artifacts := evt.artifacts },
       some (auditRequested run_id evt))
  | none =>
    (putStep s run_id "redact" { status := .COMPLETED, artifacts := evt.artifacts },
     some (auditRequested run_id evt))

/-- Error raised by the Firestore Python client when a transactional read is
attempted after a write has already been buffered in the same transaction
(ReadAfterWriteError: all reads must precede all writes, and a transactional
read can never observe the transaction's own uncommitted buffered writes). -/
inductive TxError
  | readAfterWrite
deriving DecidableEq, Repr

/-- Embeds on_audit_completed's transaction (also reused for soap.completed
with step_name = "soap").  The body reads the named step; if that step is not
already COMPLETED it buffers tx.set({status: COMPLETED, artifacts, ...}) and
then attempts to read the audit step — which the Firestore client rejects
with ReadAfterWriteError, so the transaction aborts with no state change (the
buffered step write never commits, and the event's artifacts never reach the
store).  Only when the named step is already COMPLETED is no write buffered:
the audit-step read then proceeds against committed state, and if that audit
step is COMPLETED the run document is finalized with status COMPLETED and
outcome PASS or FAIL from the stored artifacts' hipaa_pass, defaulting to
True when the key is absent
((audit.get("artifacts", {}) or {}).get("hipaa_pass", True)).  No event is
returned or published on any path. -/
def on_audit_completed (s : OrchState) (run_id : String) (_evt : Event)
    (step_name : String) : Except TxError OrchState :=
  match getStep s run_id step_name with
  | some step =>
    if step.status = .COMPLETED then
      match getStep s run_id "audit" with
      | some audit =>
        if audit.status = .COMPLETED then
          let hipaa_pass := audit.artifacts.hipaa_pass.getD true
          let finalized : RunDoc :=
            match getRun s run_id with
            | some r =>
              { r with
                status := .COMPLETED
                outcome := some (if hipaa_pass then .PASS else .FAIL) }
            | none =>
              { status := .COMPLETED
                outcome := some (if hipaa_pass then .PASS else .FAIL) }
          .ok (putRun s run_id finalized)
        else .ok s
      | none => .ok s
    else .error .readAfterWrite
  | none => .error .readAfterWrite

/-- Embeds on_step_failed: merge status FAILED and the event's error into the
named step record (defaulting the step name to "unknown"), then merge status
FAILED into the run document.  There is no completed-status guard. -/
def on_step_failed (s : OrchState) (run_id : String) (evt : Event) : OrchState :=
  let step_name := evt.step.getD "unknown"
  let s1 :=
    match getStep s run_id step_name with
    | some d => putStep s run_id step_name { d with status := .FAILED, error := evt.error }
    | none => putStep s run_id step_name { status := .FAILED, error := evt.error }
  match getRun s1 run_id with
  | some r => putRun s1 run_id { r with status := .FAILED }
  | none => putRun s1 run_id { status := .FAILED }

/-- Python str.endswith over the underlying character lists (kept
list-based so that it evaluates by kernel reduction). -/
def pyEndsWith (s suffix : String) : Bool :=
  s.data.reverse.take suffix.data.length == suffix.data.reverse

/-- Outcome of the POST /events/pubsub dispatch.  serverError is the
catch-all except branch: a handler exception (such as the transaction's
ReadAfterWriteError) is logged and surfaced as HTTP 500 so that Pub/Sub
retries, with no state change and nothing published. -/
inductive PubsubOutcome
  | handled
  | ignored (event_type : String)
  | rejected
  | serverError
deriving DecidableEq, Repr

/-- Embeds the dispatch of handle_pubsub over a decoded event: route the
dotted completion event types to their handlers, any *.failed to
on_step_failed, everything else is acknowledged and ignored.  A missing
run_id is rejected (HTTP 422); a handler exception becomes a 500
(serverError).  The "soap" in TOPICS condition of the source is statically
true because TOPICS always contains the four stage keys. -/
def handle_pubsub (s : OrchState) (evt : Event) :
    OrchState × List Published × PubsubOutcome :=
  if evt.run_id = "" then (s, [], .rejected)
  else if evt.event_type = "transcribe.completed" then
    match on_transcribe_completed s evt.run_id evt with
    | (s2, some e) => (s2, [{ topic := "redact", event := e, ordering_key := evt.run_id }], .handled)
    | (s2, none) => (s2, [], .handled)
  else if evt.event_type = "redact.completed" then
    match on_redact_completed s evt.run_id evt with
    | (s2, some e) => (s2, [{ topic := "audit", event := e, ordering_key := evt.run_id }], .handled)
    | (s2, none) => (s2, [], .handled)
  else if evt.event_type = "audit.completed" then
    match on_audit_completed s evt.run_id evt "audit" with
    | .ok s2 => (s2, [], .handled)
    | .error _ => (s, [], .serverError)
  else if evt.event_type = "soap.completed" then
    match on_audit_completed s evt.run_id evt "soap" with
    | .ok s2 => (s2, [], .handled)
    | .error _ => (s, [], .serverError)
  else if pyEndsWith evt.event_type ".failed" then
    (on_step_failed s evt.run_id evt, [], .handled)
  else (s, [], .ignored evt.event_type)

/-! ## Stage workers
Embeds the task executors of src/services/transcribe_service and
src/services/compliance_service: the artifact-cache deterministic paths, the
idempotent business-call wrappers, and the completion envelopes published by
the task handlers. -/

/-- Artifact path of the transcribe stage
(transcribe_service storage.artifact_blob_path). -/
def transcript_artifact_blob_path (idempotency_key : String) : String :=
  "artifacts/" ++ idempotency_key ++ "/transcript.json"

/-- Artifact path of the audit stage
(compliance_service storage.artifact_blob_path). -/
def audit_artifact_blob_path (idempotency_key : String) : String :=
  "artifacts/" ++ idempotency_key ++ "/audit.json"

/-- Completion envelope built by _process_transcription_task of the
transcribe worker.  Its artifacts embed, besides the cache key and the
artifact URI, the full structured transcription response
("transcription": resp.model_dump()). -/
def transcribe_completed_event (run_id : String) (artifact_bucket : String)
    (name generation language_hint : Option String) (corr : Option String)
    (resp : TranscriptionResponse) : Event :=
  { event_type := "transcribe.completed"
    run_id := run_id
    step := some "transcribe"
    input := { bucket := some artifact_bucket, name := name,
               generation := generation, language_hint := language_hint }
    artifacts := { cache_key := some run_id, transcription := some resp,
                   transcript_uri := some (transcript_artifact_blob_path run_id) }
    correlation_id := corr.getD "" }

/-- Completion envelope built by _process_audit_task of the audit worker.
The event_type is the underscore form "audit_completed" exactly as in the
source, and the artifacts carry only the cache key and the audit artifact
URI; the hipaa_pass summary field is commented out in the source and hence
absent. -/
def audit_completed_event (run_id : String) (input : InputRef)
    (corr : Option String) : Event :=
  { event_type := "audit_completed"
    run_id := run_id
    step := some "audit"
    input := { bucket := input.bucket, name := input.name, generation := input.generation }
    artifacts := { cache_key := some run_id,
                   audit_uri := some (audit_artifact_blob_path run_id) }
    correlation_id := corr.getD "" }

/-- Spec-side formula for the masking token, written from the specification
sentence: each detected span is replaced with
[TYPE_first-8-hex-of-sha256(salt || span)]. -/
def spec_mask_token (sha256hex : String → String) (salt : String)
    (entity_type span : String) : String :=
  "[" ++ entity_type ++ "_" ++ (sha256hex (salt ++ span)).take 8 ++ "]"

/-! ## Lemmas about the deterministic mask -/

theorem maskGo_eq_concatPieces (sha256hex : String → String) (salt : String)
    (text : List Char) :
    ∀ (l : List RecognizerResult) (cursor : Nat),
    maskGo sha256hex salt text l cursor
      = concatPieces sha256hex salt text (maskPieces text l cursor)
  | [], cursor => by
    simp [maskGo, maskPieces, concatPieces, renderPiece]
  | r :: rs, cursor => by
    by_cases h : r.start < cursor
    · simp only [maskGo, maskPieces, if_pos h]
      exact maskGo_eq_concatPieces sha256hex salt text rs cursor
    · simp only [maskGo, maskPieces, if_neg h, concatPieces, renderPiece,
        List.append_assoc]
      rw [maskGo_eq_concatPieces sha256hex salt text rs r.stop]

theorem tokensOf_maskPieces (text : List Char) :
    ∀ (l : List RecognizerResult) (cursor : Nat),
    tokensOf (maskPieces text l cursor) = keptSpans l cursor
  | [], cursor => by
    simp [maskPieces, tokensOf, keptSpans]
  | r :: rs, cursor => by
    by_cases h : r.start < cursor
    · simp only [maskPieces, keptSpans, if_pos h]
      exact tokensOf_maskPieces text rs cursor
    · simp only [maskPieces, keptSpans, if_neg h, tokensOf, List.filterMap_cons]
      rw [← tokensOf_maskPieces text rs r.stop]
      rfl

theorem keptSpans_head_ge :
    ∀ (l : List RecognizerResult) (cursor : Nat) (r : RecognizerResult)
      (rest : List RecognizerResult),
    keptSpans l cursor = r :: rest → cursor ≤ r.start
  | [], _, _, _ => by simp [keptSpans]
  | x :: xs, cursor, r, rest => by
    by_cases h : x.start < cursor
    · simp only [keptSpans, if_pos h]
      exact keptSpans_head_ge xs cursor r rest
    · simp only [keptSpans, if_neg h]
      intro he
      cases he
      omega

theorem keptSpans_chain :
    ∀ (l : List RecognizerResult) (cursor : Nat),
    List.Chain' (fun a b => a.stop ≤ b.start) (keptSpans l cursor)
  | [], _ => by simp [keptSpans]
  | x :: xs, cursor => by
    by_cases h : x.start < cursor
    · simp only [keptSpans, if_pos h]
      exact keptSpans_chain xs cursor
    · simp only [keptSpans, if_neg h]
      rw [List.chain'_cons']
      refine ⟨?_, keptSpans_chain xs x.stop⟩
      intro y hy
      cases hk : keptSpans xs x.stop with
      | nil => simp [hk] at hy
      | cons z zs =>
        simp [hk] at hy
        subst hy
        exact keptSpans_head_ge xs x.stop z zs hk

theorem keptSpans_nil_of_lt :
    ∀ (l : List RecognizerResult) (cursor : Nat),
    (∀ x ∈ l, x.start < cursor) → keptSpans l cursor = []
  | [], _ => by simp [keptSpans]
  | x :: xs, cursor => by
    intro hall
    have hx : x.start < cursor := hall x (List.mem_cons_self x xs)
    simp only [keptSpans, if_pos hx]
    exact keptSpans_nil_of_lt xs cursor fun y hy => hall y (List.mem_cons_of_mem x hy)

theorem spanLE_trans (a b c : RecognizerResult) :
    spanLE a b → spanLE b c → spanLE a c := by
  simp only [spanLE, decide_eq_true_eq]
  omega

theorem spanLE_total (a b : RecognizerResult) : spanLE a b || spanLE b a := by
  simp only [spanLE, Bool.or_eq_true, decide_eq_true_eq]
  omega

/-- C8: for every detected span and entity type, the redaction mask token
equals the bracketed entity type followed by an underscore and the first 8
hex digits of sha256(salt concatenated with the span text); consequently any
two spans of the same entity type whose extracted texts coincide are rendered
as the identical token. -/
theorem c8_deterministic_token_format (sha256hex : String → String) (salt : String) :
    (∀ entity_type span,
        deterministic_token sha256hex salt entity_type span
          = spec_mask_token sha256hex salt entity_type span) ∧
    (∀ (text : List Char) (r1 r2 : RecognizerResult),
        r1.entity_type = r2.entity_type →
        String.mk (pySlice text r1.start r1.stop)
          = String.mk (pySlice text r2.start r2.stop) →
        renderPiece sha256hex salt text (.tok r1)
          = renderPiece sha256hex salt text (.tok r2)) := by
  constructor
  · intro entity_type span
    rfl
  · intro text r1 r2 hty hsp
    simp only [renderPiece, deterministic_token, hty, hsp]

/-- Witness for C8 at a concrete hash, salt, and two occurrences of the same
span text in one document. -/
theorem c8_deterministic_token_format_witness :
    deterministic_token (fun _ => "0123456789abcdef") "salt" "PERSON" "John"
      = spec_mask_token (fun _ => "0123456789abcdef") "salt" "PERSON" "John" ∧
    renderPiece (fun _ => "0123456789abcdef") "salt" (String.data "John in John")
        (.tok { start := 0, stop := 4, entity_type := "PERSON" })
      = renderPiece (fun _ => "0123456789abcdef") "salt" (String.data "John in John")
        (.tok { start := 8, stop := 12, entity_type := "PERSON" }) :=
  ⟨(c8_deterministic_token_format (fun _ => "0123456789abcdef") "salt").1 "PERSON" "John",
   (c8_deterministic_token_format (fun _ => "0123456789abcdef") "salt").2
     (String.data "John in John")
     { start := 0, stop := 4, entity_type := "PERSON" }
     { start := 8, stop := 12, entity_type := "PERSON" }
     rfl (by decide)⟩

/-- C9: deterministic masking processes the detections sorted by (start, end);
the output is the concatenation of gap and token pieces where a span starting
before the end of the previously emitted span is dropped; exactly one token
is emitted per kept span, the kept spans are pairwise non-overlapping in
emission order, and a nonempty group of mutually overlapping spans yields
exactly one token. -/
theorem c9_mask_left_to_right_overlap (sha256hex : String → String) (salt : String)
    (text : String) (results : List RecognizerResult) :
    apply_deterministic_mask sha256hex salt text results
      = String.mk (concatPieces sha256hex salt text.data
          (maskPieces text.data (results.mergeSort spanLE) 0)) ∧
    tokensOf (maskPieces text.data (results.mergeSort spanLE) 0)
      = keptSpans (results.mergeSort spanLE) 0 ∧
    List.Pairwise (fun a b => spanLE a b = true) (results.mergeSort spanLE) ∧
    List.Chain' (fun a b => a.stop ≤ b.start) (keptSpans (results.mergeSort spanLE) 0) ∧
    (results ≠ [] → (∀ r1 ∈ results, ∀ r2 ∈ results, overlaps r1 r2) →
        (keptSpans (results.mergeSort spanLE) 0).length = 1) := by
  refine ⟨?_, tokensOf_maskPieces text.data _ 0, ?_, keptSpans_chain _ 0, ?_⟩
  · unfold apply_deterministic_mask
    rw [maskGo_eq_concatPieces]
  · exact List.sorted_mergeSort spanLE_trans spanLE_total results
  · intro hne hov
    obtain ⟨h, t, hht⟩ : ∃ h t, results.mergeSort spanLE = h :: t := by
      cases hms : results.mergeSort spanLE with
      | nil =>
        exfalso
        have hlen := (List.mergeSort_perm results spanLE).length_eq
        rw [hms] at hlen
        have h0 : results.length = 0 := by simpa using hlen.symm
        exact hne (List.length_eq_zero.mp h0)
      | cons h t => exact ⟨h, t, rfl⟩
    have hmem : ∀ x ∈ results.mergeSort spanLE, x ∈ results := by
      intro x hx
      exact List.mem_mergeSort.mp hx
    have hh : h ∈ results := hmem h (hht ▸ List.mem_cons_self h t)
    rw [hht]
    simp only [keptSpans, if_neg (Nat.not_lt_zero h.start), List.length_cons]
    rw [keptSpans_nil_of_lt]
    · simp
    · intro x hx
      have hxm : x ∈ results := hmem x (hht ▸ List.mem_cons_of_mem h hx)
      exact (hov h hh x hxm).2

/-- Witness for C9 at a concrete text and a pair of mutually overlapping
spans: exactly one token is kept. -/
theorem c9_mask_left_to_right_overlap_witness :
    (keptSpans (([{ start := 0, stop := 5, entity_type := "PERSON" },
        { start := 3, stop := 7, entity_type := "LOCATION" }] :
        List RecognizerResult).mergeSort spanLE) 0).length = 1 :=
  (c9_mask_left_to_right_overlap (fun _ => "0123456789abcdef") "salt" "abcdefghij"
      [{ start := 0, stop := 5, entity_type := "PERSON" },
       { start := 3, stop := 7, entity_type := "LOCATION" }]).2.2.2.2
    (by decide) (by decide)

/-! ## Lemmas about the orchestrator state -/

theorem getStep_putStep_self (s : OrchState) (run_id step : String) (d : StepDoc) :
    getStep (putStep s run_id step d) run_id step = some d := by
  simp [getStep, putStep, lookupA]

theorem getStep_putStep_ne (s : OrchState) (run_id step : String) (d : StepDoc)
    (r st : String) (h : ¬(r = run_id ∧ st = step)) :
    getStep (putStep s run_id step d) r st = getStep s r st := by
  simp only [getStep, putStep, lookupA]
  rw [if_neg]
  intro he
  exact h (by simpa using he)

theorem getRun_putRun_self (s : OrchState) (run_id : String) (d : RunDoc) :
    getRun (putRun s run_id d) run_id = some d := by
  simp [getRun, putRun, lookupA]

theorem getRun_putRun_ne (s : OrchState) (run_id : String) (d : RunDoc)
    (r : String) (h : r ≠ run_id) :
    getRun (putRun s run_id d) r = getRun s r := by
  simp [getRun, putRun, lookupA, h]

theorem getRun_putStep (s : OrchState) (run_id step : String) (d : StepDoc)
    (r : String) : getRun (putStep s run_id step d) r = getRun s r := rfl

theorem getStep_putRun (s : OrchState) (run_id : String) (d : RunDoc)
    (r st : String) : getStep (putRun s run_id d) r st = getStep s r st := rfl

/-- Success path of on_audit_completed for an audit.completed event: when
the audit step record is already COMPLETED no write is buffered before the
audit read, so the transaction commits, finalizing the run with status
COMPLETED and outcome PASS or FAIL from the stored artifacts' hipaa_pass
defaulted to true.  The step record itself is untouched. -/
theorem on_audit_completed_completed_spec (s : OrchState) (run_id : String)
    (evt : Event) (d : StepDoc) (hd : getStep s run_id "audit" = some d)
    (hc : d.status = .COMPLETED) :
    ∃ s2 r, on_audit_completed s run_id evt "audit" = .ok s2 ∧
      getStep s2 run_id "audit" = some d ∧
      getRun s2 run_id = some r ∧ r.status = .COMPLETED ∧
      r.outcome = some (if d.artifacts.hipaa_pass.getD true then Outcome.PASS
        else Outcome.FAIL) := by
  cases hrun : getRun s run_id with
  | none =>
    have hred : on_audit_completed s run_id evt "audit"
        = .ok (putRun s run_id ⟨.COMPLETED, some (if d.artifacts.hipaa_pass.getD true
            then Outcome.PASS else Outcome.FAIL), none, none⟩) := by
      simp [on_audit_completed, hd, hc, hrun]
    exact ⟨_, _, hred, by rw [getStep_putRun]; exact hd,
      getRun_putRun_self _ _ _, rfl, rfl⟩
  | some r0 =>
    have hred : on_audit_completed s run_id evt "audit"
        = .ok (putRun s run_id ⟨.COMPLETED, some (if d.artifacts.hipaa_pass.getD true
            then Outcome.PASS else Outcome.FAIL), r0.input, r0.correlation_id⟩) := by
      simp [on_audit_completed, hd, hc, hrun]
    exact ⟨_, _, hred, by rw [getStep_putRun]; exact hd,
      getRun_putRun_self _ _ _, rfl, rfl⟩

/-- Aborting path of on_audit_completed: when the named step record is absent
or not COMPLETED, the transaction buffers the completing write and then
attempts the audit-step read, which raises ReadAfterWriteError; the
transaction rolls back with no state change. -/
theorem on_audit_completed_raises (s : OrchState) (run_id step_name : String)
    (evt : Event)
    (h : ∀ d, getStep s run_id step_name = some d → d.status ≠ .COMPLETED) :
    on_audit_completed s run_id evt step_name = .error .readAfterWrite := by
  unfold on_audit_completed
  cases hd : getStep s run_id step_name with
  | none => rfl
  | some d => simp [h d hd]

/-- C1 evidence: for an audit.completed event on a run whose audit step is
not already COMPLETED (in particular every first delivery), the handler's
transaction raises ReadAfterWriteError: it neither marks the audit stage
COMPLETED nor finalizes the run, contrary to the claim.  Only when the audit
step record is already COMPLETED does the finalization branch run, and there
the run is finalized COMPLETED with outcome FAIL exactly when the stored
hipaa_pass is false, as the claim's decision rule prescribes. -/
theorem c1_audit_branch_decision (s : OrchState) (run_id : String) (evt : Event) :
    ((∀ d, getStep s run_id "audit" = some d → d.status ≠ .COMPLETED) →
      on_audit_completed s run_id evt "audit" = .error .readAfterWrite) ∧
    (∀ d, getStep s run_id "audit" = some d → d.status = .COMPLETED →
      ∃ s2 r, on_audit_completed s run_id evt "audit" = .ok s2 ∧
        getStep s2 run_id "audit" = some d ∧
        getRun s2 run_id = some r ∧ r.status = .COMPLETED ∧
        r.outcome = some (if d.artifacts.hipaa_pass.getD true then Outcome.PASS
          else Outcome.FAIL) ∧
        (r.outcome = some .FAIL ↔ d.artifacts.hipaa_pass = some false)) := by
  refine ⟨fun h => on_audit_completed_raises s run_id "audit" evt h, ?_⟩
  intro d hd hc
  obtain ⟨s2, r, h1, h2, h3, h4, h5⟩ := on_audit_completed_completed_spec s run_id evt d hd hc
  refine ⟨s2, r, h1, h2, h3, h4, h5, ?_⟩
  rw [h5]
  cases hhp : d.artifacts.hipaa_pass with
  | none => simp
  | some b => cases b <;> simp

/-- Witness for C1: at a PENDING audit step the handler raises and changes
nothing; at an already-COMPLETED audit step whose stored artifacts carry
hipaa_pass = false, the run is finalized COMPLETED with outcome FAIL. -/
theorem c1_audit_branch_decision_witness :
    on_audit_completed
        { runs := [("r1", ⟨.RUNNING, none, none, none⟩)],
          steps := [(("r1", "audit"), ⟨.PENDING, {}, none⟩)] } "r1"
        { event_type := "audit.completed", run_id := "r1" } "audit"
      = .error .readAfterWrite ∧
    (∃ s2 r, on_audit_completed
        { steps := [(("r1", "audit"), ⟨.COMPLETED, { hipaa_pass := some false }, none⟩)] } "r1"
        { event_type := "audit.completed", run_id := "r1" } "audit" = .ok s2 ∧
      getRun s2 "r1" = some r ∧ r.status = .COMPLETED ∧ r.outcome = some .FAIL) := by
  have h1 := c1_audit_branch_decision
    { runs := [("r1", ⟨.RUNNING, none, none, none⟩)],
      steps := [(("r1", "audit"), ⟨.PENDING, {}, none⟩)] } "r1"
    { event_type := "audit.completed", run_id := "r1" }
  have h2 := c1_audit_branch_decision
    { steps := [(("r1", "audit"), ⟨.COMPLETED, { hipaa_pass := some false }, none⟩)] } "r1"
    { event_type := "audit.completed", run_id := "r1" }
  refine ⟨h1.1 ?_, ?_⟩
  · intro d hd
    have h0 : (some (⟨.PENDING, {}, none⟩ : StepDoc) : Option StepDoc)
        = getStep
            { runs := [("r1", ⟨.RUNNING, none, none, none⟩)],
              steps := [(("r1", "audit"), ⟨.PENDING, {}, none⟩)] } "r1" "audit" := by
      decide
    cases h0.trans hd
    decide
  · obtain ⟨s2, r, ha, hb, hg, hs, ho, hf⟩ := h2.2 ⟨.COMPLETED, { hipaa_pass := some false }, none⟩ rfl rfl
    exact ⟨s2, r, ha, hg, hs, hf.mpr rfl⟩

/-- C2 (amended): handling an audit.completed event never publishes anything
(in particular never a soap.requested).  When the audit stage record is
already COMPLETED, the run is finalized at audit with outcome PASS exactly
when the stored hipaa_pass is true or absent; otherwise the transaction
raises ReadAfterWriteError and the handler returns a 500 with nothing
published and no state change. -/
theorem c2_audit_finalizes_without_soap (s : OrchState) (evt : Event)
    (htype : evt.event_type = "audit.completed") (hrid : evt.run_id ≠ "") :
    (handle_pubsub s evt).2.1 = [] ∧
    (∀ d, getStep s evt.run_id "audit" = some d → d.status = .COMPLETED →
      (handle_pubsub s evt).2.2 = .handled ∧
      ∃ r, getRun (handle_pubsub s evt).1 evt.run_id = some r ∧ r.status = .COMPLETED ∧
        r.outcome = some (if d.artifacts.hipaa_pass.getD true then Outcome.PASS
          else Outcome.FAIL)) ∧
    ((∀ d, getStep s evt.run_id "audit" = some d → d.status ≠ .COMPLETED) →
      handle_pubsub s evt = (s, [], .serverError)) := by
  have hred : handle_pubsub s evt
      = (match on_audit_completed s evt.run_id evt "audit" with
         | .ok s2 => (s2, [], .handled)
         | .error _ => (s, [], .serverError)) := by
    simp [handle_pubsub, htype, hrid]
  refine ⟨?_, ?_, ?_⟩
  · rw [hred]
    cases on_audit_completed s evt.run_id evt "audit" <;> rfl
  · intro d hd hc
    obtain ⟨s2, r, h1, h2, h3, h4, h5⟩ :=
      on_audit_completed_completed_spec s evt.run_id evt d hd hc
    rw [hred, h1]
    exact ⟨rfl, r, h3, h4, h5⟩
  · intro h
    rw [hred, on_audit_completed_raises s evt.run_id "audit" evt h]

/-- Witness for C2 (amended): with the audit step already COMPLETED and
hipaa_pass = true stored, the handler publishes nothing and finalizes the run
COMPLETED with outcome PASS. -/
theorem c2_audit_finalizes_without_soap_witness :
    (handle_pubsub
        { runs := [("r1", ⟨.RUNNING, none, none, none⟩)],
          steps := [(("r1", "audit"), ⟨.COMPLETED, { hipaa_pass := some true }, none⟩)] }
        { event_type := "audit.completed", run_id := "r1" }).2.1 = [] ∧
    ∃ r, getRun (handle_pubsub
        { runs := [("r1", ⟨.RUNNING, none, none, none⟩)],
          steps := [(("r1", "audit"), ⟨.COMPLETED, { hipaa_pass := some true }, none⟩)] }
        { event_type := "audit.completed", run_id := "r1" }).1 "r1"
      = some r ∧ r.status = .COMPLETED ∧ r.outcome = some .PASS := by
  have h := c2_audit_finalizes_without_soap
    { runs := [("r1", ⟨.RUNNING, none, none, none⟩)],
      steps := [(("r1", "audit"), ⟨.COMPLETED, { hipaa_pass := some true }, none⟩)] }
    { event_type := "audit.completed", run_id := "r1" } rfl (by decide)
  refine ⟨h.1, ?_⟩
  obtain ⟨-, r, hr1, hr2, hr3⟩ := h.2.1 ⟨.COMPLETED, { hipaa_pass := some true }, none⟩ rfl rfl
  exact ⟨r, hr1, hr2, by simpa using hr3⟩

/-- Counterexample to C2 as stated: on a run whose audit stage record is
already COMPLETED with stored hipaa_pass = true, handling audit.completed
publishes no event at all (no soap.requested) and finalizes the run at audit
with status COMPLETED and outcome PASS. -/
theorem c2_counterexample :
    (handle_pubsub
        { runs := [("r1", ⟨.RUNNING, none, none, none⟩)],
          steps := [(("r1", "audit"), ⟨.COMPLETED, { hipaa_pass := some true }, none⟩)] }
        { event_type := "audit.completed", run_id := "r1" }).2.1 = [] ∧
    getRun (handle_pubsub
        { runs := [("r1", ⟨.RUNNING, none, none, none⟩)],
          steps := [(("r1", "audit"), ⟨.COMPLETED, { hipaa_pass := some true }, none⟩)] }
        { event_type := "audit.completed", run_id := "r1" }).1 "r1"
      = some ⟨.COMPLETED, some .PASS, none, none⟩ := by
  decide

/-- C3 evidence: the audit worker's completion envelope carries event_type
"audit_completed" (underscore form, exactly as built by _process_audit_task),
which differs from the dotted audit.completed; the orchestrator's pub/sub
dispatch does not route it to the audit handler but acknowledges and ignores
it, whereas the transcribe worker's envelope does use the dotted form that
the dispatch recognizes. -/
theorem c3_audit_event_type_mismatch :
    (∀ rid input corr, (audit_completed_event rid input corr).event_type = "audit_completed") ∧
    (∀ (s : OrchState) (evt : Event), evt.event_type = "audit_completed" → evt.run_id ≠ "" →
        handle_pubsub s evt = (s, [], .ignored "audit_completed")) ∧
    ("audit_completed" ≠ "audit.completed") ∧
    (∀ rid ab nm gen lh corr resp,
        (transcribe_completed_event rid ab nm gen lh corr resp).event_type
          = "transcribe.completed") := by
  refine ⟨fun _ _ _ => rfl, ?_, by decide, fun _ _ _ _ _ _ _ => rfl⟩
  intro s evt het hrid
  have hew : pyEndsWith "audit_completed" ".failed" = false := by decide
  simp [handle_pubsub, het, hrid, hew]

/-- Witness for C3: the envelope the audit worker builds for run r1 is
ignored by the orchestrator dispatch. -/
theorem c3_audit_event_type_mismatch_witness :
    handle_pubsub {} (audit_completed_event "r1" {} none)
      = ({}, [], .ignored "audit_completed") :=
  c3_audit_event_type_mismatch.2.1 {} (audit_completed_event "r1" {} none) rfl (by decide)

/-- C4 (amended): when the audit stage record is already COMPLETED and its
artifacts map lacks the hipaa_pass key (the audit worker's completion
envelope indeed omits it), the handler does not raise: it defaults hipaa_pass
to true and finalizes the run with status COMPLETED and outcome PASS.  When
the audit stage record is not already COMPLETED, the handler raises
(ReadAfterWriteError) regardless of hipaa_pass and performs no state
change. -/
theorem c4_missing_hipaa_defaults_pass (s : OrchState) (run_id : String) (evt : Event)
    (d : StepDoc) (hd : getStep s run_id "audit" = some d)
    (hc : d.status = .COMPLETED) (h : d.artifacts.hipaa_pass = none) :
    (∀ rid input corr, (audit_completed_event rid input corr).artifacts.hipaa_pass = none) ∧
    ∃ s2 r, on_audit_completed s run_id evt "audit" = .ok s2 ∧
      getRun s2 run_id = some r ∧ r.status = .COMPLETED ∧ r.outcome = some .PASS := by
  obtain ⟨s2, r, h1, h2, h3, h4, h5⟩ := on_audit_completed_completed_spec s run_id evt d hd hc
  refine ⟨fun _ _ _ => rfl, s2, r, h1, h3, h4, ?_⟩
  rw [h5, h]
  rfl

/-- Witness for C4 (amended): on a COMPLETED audit stage record with no
hipaa_pass key, handling the audit worker's own envelope (which also omits
hipaa_pass) finalizes the run COMPLETED with outcome PASS. -/
theorem c4_missing_hipaa_defaults_pass_witness :
    ∃ s2 r, on_audit_completed
        { steps := [(("r1", "audit"), ⟨.COMPLETED, {}, none⟩)] } "r1"
        (audit_completed_event "r1" { bucket := some "b", name := some "n" } none) "audit"
      = .ok s2 ∧ getRun s2 "r1" = some r ∧ r.status = .COMPLETED ∧ r.outcome = some .PASS :=
  (c4_missing_hipaa_defaults_pass
    { steps := [(("r1", "audit"), ⟨.COMPLETED, {}, none⟩)] } "r1"
    (audit_completed_event "r1" { bucket := some "b", name := some "n" } none)
    ⟨.COMPLETED, {}, none⟩ rfl rfl rfl).2

/-- Counterexample to C4 as stated: with the audit stage record present but
not COMPLETED (a PENDING record whose artifacts map lacks hipaa_pass) and the
audit worker's own completion envelope (which omits hipaa_pass), the handler
raises (ReadAfterWriteError on the audit-step read after the buffered write)
instead of defaulting the key and finalizing the run. -/
theorem c4_counterexample :
    (audit_completed_event "r1" { bucket := some "b", name := some "n" } none).artifacts.hipaa_pass
      = none ∧
    on_audit_completed
        { runs := [("r1", ⟨.RUNNING, none, none, none⟩)],
          steps := [(("r1", "audit"), ⟨.PENDING, {}, none⟩)] } "r1"
        (audit_completed_event "r1" { bucket := some "b", name := some "n" } none) "audit"
      = .error .readAfterWrite :=
  ⟨rfl, rfl⟩

/-- C5: create-run is idempotent with an exact frame: when a run document
with the computed run id exists, the call returns created = false and changes
no run or step document and publishes nothing; when absent, it writes exactly
the RUNNING run document and the PENDING transcribe step, returns
created = true, and publishes exactly one transcribe.requested event with
ordering key equal to the run id. -/
theorem c5_create_run_idempotent (sha256hex : String → String) (s : OrchState)
    (run : RunCreate) (hdr : Option String) (rid corr : String)
    (hrid : rid = idempotency_key_for sha256hex run.bucket run.name run.generation run.session_id)
    (hcorr : corr = pyOr (run.correlation_id.getD "") (hdr.getD "")) :
    (create_run sha256hex s run hdr).2.2.run_id = rid ∧
    (∀ d, getRun s rid = some d →
        create_run sha256hex s run hdr = (s, [], { run_id := rid, created := false })) ∧
    (getRun s rid = none →
        (create_run sha256hex s run hdr).2.2.created = true ∧
        getRun (create_run sha256hex s run hdr).1 rid
          = some ⟨.RUNNING, none,
              some ⟨some run.bucket, some run.name, run.generation, run.session_id, none⟩,
              some corr⟩ ∧
        getStep (create_run sha256hex s run hdr).1 rid "transcribe"
          = some ⟨.PENDING, {}, none⟩ ∧
        (create_run sha256hex s run hdr).2.1
          = [⟨"transcribe", transcribeRequested rid run corr, rid⟩] ∧
        (∀ r2, r2 ≠ rid → getRun (create_run sha256hex s run hdr).1 r2 = getRun s r2) ∧
        (∀ r2 st, ¬(r2 = rid ∧ st = "transcribe") →
            getStep (create_run sha256hex s run hdr).1 r2 st = getStep s r2 st)) := by
  subst hrid
  subst hcorr
  simp only [create_run]
  cases hex : getRun s (idempotency_key_for sha256hex run.bucket run.name run.generation
      run.session_id) with
  | some d =>
    exact ⟨rfl, fun _ _ => rfl, fun hn => Option.noConfusion hn⟩
  | none =>
    refine ⟨rfl, fun d hd => Option.noConfusion hd, fun _ => ⟨rfl, ?_, ?_, rfl, ?_, ?_⟩⟩
    · rw [getRun_putStep, getRun_putRun_self]
    · exact getStep_putStep_self _ _ _ _
    · intro r2 hr2
      rw [getRun_putStep, getRun_putRun_ne _ _ _ _ hr2]
    · intro r2 st hne
      rw [getStep_putStep_ne _ _ _ _ _ _ hne, getStep_putRun]

/-- Witness for C5: creating a run in the empty state writes the run and the
transcribe step and publishes one transcribe.requested; creating it again
returns created = false with the state unchanged and nothing published. -/
theorem c5_create_run_idempotent_witness :
    (create_run (fun _ => "k1") {} { bucket := "b", name := "a.wav" } none).2.2.created = true ∧
    getStep (create_run (fun _ => "k1") {} { bucket := "b", name := "a.wav" } none).1
      "k1" "transcribe" = some ⟨.PENDING, {}, none⟩ ∧
    getRun (create_run (fun _ => "k1") {} { bucket := "b", name := "a.wav" } none).1
      "other" = none := by
  have h := c5_create_run_idempotent (fun _ => "k1") {} { bucket := "b", name := "a.wav" }
    none "k1" "" rfl rfl
  obtain ⟨-, -, h3⟩ := h
  obtain ⟨hc, -, hstep, -, hframe, -⟩ := h3 rfl
  exact ⟨hc, hstep, by rw [hframe "other" (by decide)]; rfl⟩

/-- Behaviour of on_step_failed: the named stage record is set to FAILED with
the event's error and the run document is set to FAILED, unconditionally. -/
theorem on_step_failed_spec (s : OrchState) (run_id : String) (evt : Event) :
    (∃ d, getStep (on_step_failed s run_id evt) run_id (evt.step.getD "unknown") = some d ∧
        d.status = .FAILED ∧ d.error = evt.error) ∧
    (∃ r, getRun (on_step_failed s run_id evt) run_id = some r ∧ r.status = .FAILED) := by
  simp only [on_step_failed]
  cases hd : getStep s run_id (evt.step.getD "unknown") with
  | none =>
    cases hr : getRun (putStep s run_id (evt.step.getD "unknown")
        ⟨.FAILED, {}, evt.error⟩) run_id with
    | none =>
      exact ⟨⟨_, by rw [getStep_putRun, getStep_putStep_self], rfl, rfl⟩,
        ⟨_, getRun_putRun_self _ _ _, rfl⟩⟩
    | some r0 =>
      exact ⟨⟨_, by rw [getStep_putRun, getStep_putStep_self], rfl, rfl⟩,
        ⟨_, getRun_putRun_self _ _ _, rfl⟩⟩
  | some d0 =>
    cases hr : getRun (putStep s run_id (evt.step.getD "unknown")
        ⟨.FAILED, d0.artifacts, evt.error⟩) run_id with
    | none =>
      exact ⟨⟨_, by rw [getStep_putRun, getStep_putStep_self], rfl, rfl⟩,
        ⟨_, getRun_putRun_self _ _ _, rfl⟩⟩
    | some r0 =>
      exact ⟨⟨_, by rw [getStep_putRun, getStep_putStep_self], rfl, rfl⟩,
        ⟨_, getRun_putRun_self _ _ _, rfl⟩⟩

/-- C7 (amended): a completion handler that sees its stage already COMPLETED
no-ops (returns the state unchanged and publishes nothing), and handling the
same completion twice advances the state machine at most once; but
on_step_failed has no COMPLETED guard: it unconditionally marks the named
stage FAILED and the run FAILED, overwriting even a COMPLETED stage. -/
theorem c7_completed_guard_amended (s : OrchState) (run_id : String) (evt evt2 : Event) :
    (∀ d, getStep s run_id "transcribe" = some d → d.status = .COMPLETED →
        on_transcribe_completed s run_id evt = (s, none)) ∧
    (on_transcribe_completed (on_transcribe_completed s run_id evt).1 run_id evt2
        = ((on_transcribe_completed s run_id evt).1, none)) ∧
    (∃ d, getStep (on_step_failed s run_id evt) run_id (evt.step.getD "unknown") = some d ∧
        d.status = .FAILED) ∧
    (∃ r, getRun (on_step_failed s run_id evt) run_id = some r ∧ r.status = .FAILED) := by
  refine ⟨?_, ?_, ?_, ?_⟩
  · intro d hd hc
    simp [on_transcribe_completed, hd, hc]
  · cases hd : getStep s run_id "transcribe" with
    | none =>
      simp only [on_transcribe_completed, hd, getStep_putStep_self]
      simp
    | some d =>
      by_cases hc : d.status = .COMPLETED
      · simp [on_transcribe_completed, hd, hc]
      · simp only [on_transcribe_completed, hd, if_neg hc, getStep_putStep_self]
        simp
  · obtain ⟨⟨d, hd1, hd2, -⟩, -⟩ := on_step_failed_spec s run_id evt
    exact ⟨d, hd1, hd2⟩
  · exact (on_step_failed_spec s run_id evt).2

/-- Witness for C7 (amended): the transcribe handler no-ops on a COMPLETED
stage, and a failed event marks stage and run FAILED. -/
theorem c7_completed_guard_amended_witness :
    on_transcribe_completed
        { steps := [(("r1", "transcribe"), ⟨.COMPLETED, {}, none⟩)] } "r1"
        { event_type := "transcribe.completed", run_id := "r1" }
      = ({ steps := [(("r1", "transcribe"), ⟨.COMPLETED, {}, none⟩)] }, none) ∧
    (∃ r, getRun (on_step_failed {} "r1"
        { event_type := "transcribe.failed", run_id := "r1", step := some "transcribe" }) "r1"
      = some r ∧ r.status = .FAILED) := by
  have h1 := c7_completed_guard_amended
    { steps := [(("r1", "transcribe"), ⟨.COMPLETED, {}, none⟩)] } "r1"
    { event_type := "transcribe.completed", run_id := "r1" }
    { event_type := "transcribe.completed", run_id := "r1" }
  have h2 := c7_completed_guard_amended {} "r1"
    { event_type := "transcribe.failed", run_id := "r1", step := some "transcribe" }
    { event_type := "transcribe.failed", run_id := "r1", step := some "transcribe" }
  exact ⟨h1.1 ⟨.COMPLETED, {}, none⟩ rfl rfl, h2.2.2.2⟩

/-- Counterexample to C7 as stated: a late transcribe.failed event delivered
after the transcribe stage is COMPLETED (and the run finalized COMPLETED with
outcome PASS) overwrites the stage record to FAILED and the run to FAILED. -/
theorem c7_counterexample :
    getStep (on_step_failed
        { runs := [("r1", ⟨.COMPLETED, some .PASS, none, none⟩)],
          steps := [(("r1", "transcribe"), ⟨.COMPLETED, {}, none⟩)] } "r1"
        { event_type := "transcribe.failed", run_id := "r1", step := some "transcribe",
          error := some "boom" }) "r1" "transcribe"
      = some ⟨.FAILED, {}, some "boom"⟩ ∧
    getRun (on_step_failed
        { runs := [("r1", ⟨.COMPLETED, some .PASS, none, none⟩)],
          steps := [(("r1", "transcribe"), ⟨.COMPLETED, {}, none⟩)] } "r1"
        { event_type := "transcribe.failed", run_id := "r1", step := some "transcribe",
          error := some "boom" }) "r1"
      = some ⟨.FAILED, some .PASS, none, none⟩ := by
  decide

/-- C10 (amended): not every pipeline message carries only references.  The
create-run transcribe.requested envelope and the audit worker's completion
envelope do carry only references (run id, correlation, input reference,
cache key and artifact URI); but the transcribe worker's completion envelope
embeds the full transcription payload (the model output itself) under
artifacts.transcription, and the orchestrator's redact.requested and
audit.requested envelopes forward the triggering event's artifacts verbatim,
so the redact.requested built from a transcribe.completed event carries that
payload as well. -/
theorem c10_messages_reference_amended :
    (∀ rid input corr, (audit_completed_event rid input corr).artifacts
        = { cache_key := some rid, audit_uri := some (audit_artifact_blob_path rid) }) ∧
    (∀ rid run corr, (transcribeRequested rid run corr).artifacts = ({} : ArtifactsMap)) ∧
    (∀ rid evt, (redactRequested rid evt).artifacts = evt.artifacts ∧
        (auditRequested rid evt).artifacts = evt.artifacts) ∧
    (∀ rid ab nm gen lh corr resp,
        (transcribe_completed_event rid ab nm gen lh corr resp).artifacts.transcription
          = some resp ∧
        (redactRequested rid
            (transcribe_completed_event rid ab nm gen lh corr resp)).artifacts.transcription
          = some resp) :=
  ⟨fun _ _ _ => rfl, fun _ _ _ => rfl, fun _ _ => ⟨rfl, rfl⟩,
   fun _ _ _ _ _ _ _ => ⟨rfl, rfl⟩⟩

/-- Counterexample to C10 as stated: the transcribe.completed envelope built
by the transcribe worker carries the transcript text itself, not only
references. -/
theorem c10_counterexample :
    (transcribe_completed_event "r1" "ab" (some "a.wav") none none none
        ⟨⟨"hello world", none, [], none, none, "t"⟩, "a.wav", "v1"⟩).artifacts.transcription
      ≠ none ∧
    ((transcribe_completed_event "r1" "ab" (some "a.wav") none none none
        ⟨⟨"hello world", none, [], none, none, "t"⟩, "a.wav", "v1"⟩).artifacts.transcription.map
      fun r => r.transcription.text) = some "hello world" := by
  decide

/-! ## Lemmas about the idempotent task executors -/

end Shoki
